import Mathlib

set_option linter.unusedVariables false

/-!
Verification of the Hamlib `hambits` rotor backend (`src/hambits/hambits.c`).

The file embeds the protocol logic of the backend shallowly:

* `hambits_transaction` — the request/reply transaction engine with its
  retry loop (lines 78–115 of `hambits.c`).  The serial transport
  (`serial_flush`, `write_block`, `read_string` from Hamlib's `serial.c`,
  which is not part of this repository) is abstracted by an environment
  `env : Nat → Attempt` giving, for each iteration of the retry loop, the
  result of the `write_block` call and the result and buffer contents of
  the `read_string` call.
* the rotor command layer — `hambits_set_position`, `hambits_get_position`,
  `hambits_stop`, `hambits_park`, `hambits_reset`, `hambits_move` — over an
  explicit `HambitsPriv` state record mirroring `struct hambits_priv_data`.

`azimuth_t`/`elevation_t` are C `float`s in Hamlib; every value that the
claims exercise (multiples of 1/4 degree) is exactly representable, and the
driver performs no arithmetic on them beyond formatting and parsing, so they
are modelled by `ℚ`.  `size_t` is modelled by `Nat`, and the C conversion of
the (signed) `read_string` result into the `size_t` variable `*data_len` is
the reduction modulo `2^64` (`toSizeT`).
-/

set_option autoImplicit false

namespace Hambits

/-- Error codes from Hamlib's `rig.h` error enumeration (`RIG_OK = 0`,
`RIG_EINVAL = 1`, ..., `RIG_ETIMEOUT = 5`, `RIG_EIO = 6`).  The backend
returns them with the signs exactly as written in `hambits.c`. -/
def RIG_OK : Int := 0

/-- Invalid-argument error code (`rig.h`). -/
def RIG_EINVAL : Int := 1

/-- Timeout error code (`rig.h`). -/
def RIG_ETIMEOUT : Int := 5

/-- Input/output error code (`rig.h`). -/
def RIG_EIO : Int := 6

/-- Movement direction flags from Hamlib's `rotator.h`:
`ROT_MOVE_UP = (1<<1)`, `ROT_MOVE_DOWN = (1<<2)`,
`ROT_MOVE_LEFT = ROT_MOVE_CCW = (1<<3)`,
`ROT_MOVE_RIGHT = ROT_MOVE_CW = (1<<4)`. -/
def ROT_MOVE_UP : Int := 2

/-- Movement direction flag for down (`rotator.h`). -/
def ROT_MOVE_DOWN : Int := 4

/-- Movement direction flag for counter-clockwise (`rotator.h`). -/
def ROT_MOVE_CCW : Int := 8

/-- Movement direction flag for clockwise (`rotator.h`). -/
def ROT_MOVE_CW : Int := 16

/-- The configured retry budget: `.retry = 5` in `hambits_caps`, copied by the
Hamlib frontend into `rot->state.rotport.retry`. -/
def hambits_retry : Nat := 5

/-- Outcome of one iteration of the transaction loop, as delivered by the
external serial transport: the return value of `write_block`, the return
value of `read_string` (number of bytes read, or a negative error code such
as `-RIG_ETIMEOUT` on timeout), and the contents the read left in the
(previously zeroed) buffer. -/
structure Attempt where
  writeResult : Int
  readResult : Int
  readData : String
deriving DecidableEq

/-- Result of `hambits_transaction`: the returned code, the reply buffer's
contents (`none` when the buffer was never written — either no reply was
wanted or the function returned before the read), and the value left in the
caller's `size_t` length variable `*data_len`. -/
structure TransactResult where
  code : Int
  data : Option String
  dataLen : Nat
deriving DecidableEq

/-- The C conversion of the `int` returned by `read_string` into the
`size_t` object `*data_len` (line 101 of `hambits.c`): reduction modulo
`2^64`.  A negative read result becomes a huge positive `size_t`. -/
def toSizeT (r : Int) : Nat := (r % (2 ^ 64 : Int)).toNat

/-- The `while(1)` retry loop of `hambits_transaction` (lines 87–114 of
`hambits.c`).  Per iteration: flush (no observable effect in the model),
write the command if present and return its error code on failure, then, if
a reply buffer was supplied, zero it and read; the read result is stored
into the unsigned `*data_len`, the source then tests `*data_len < 0`
(line 102) — a comparison on `size_t`, hence on `Nat` here — and on that
(never satisfied) test either retries, or returns `RIG_ETIMEOUT` once the
post-incremented `retry_read` counter has exceeded the retry budget. -/
def transactLoop (retryCap : Nat) (cmdstr : Option String) (wantData : Bool)
    (env : Nat → Attempt) (retry_read attempt : Nat) : TransactResult :=
  let a := env attempt
  if cmdstr.isSome ∧ a.writeResult ≠ RIG_OK then
    { code := a.writeResult, data := none, dataLen := 0 }
  else if wantData then
    let len := toSizeT a.readResult
    if len < 0 then
      if h : retryCap ≤ retry_read then
        { code := RIG_ETIMEOUT, data := some "", dataLen := len }
      else
        transactLoop retryCap cmdstr wantData env (retry_read + 1) (attempt + 1)
    else
      { code := RIG_OK, data := some a.readData, dataLen := len }
  else
    { code := RIG_OK, data := none, dataLen := 0 }
termination_by retryCap - retry_read
decreasing_by omega

/-- `hambits_transaction` (lines 78–115 of `hambits.c`).  `cmdstr` is the
optional command, `wantData` models a non-NULL `data` buffer,
`expectedLen` mirrors the `expected_return_length` argument handed to the
external `read_string` (whose outcome, bounded by that length, is what
`env` reports). -/
def hambits_transaction (retryCap : Nat) (cmdstr : Option String)
    (wantData : Bool) (expectedLen : Nat) (env : Nat → Attempt) : TransactResult :=
  transactLoop retryCap cmdstr wantData env 0 0

/-- The private driver state `struct hambits_priv_data` (lines 42–49 of
`hambits.c`): current position (`az`, `el`) and target position
(`target_az`, `target_el`).  The `struct timeval tv` member is declared in
the source but never read or written by any operation, so it is omitted. -/
structure HambitsPriv where
  az : ℚ
  el : ℚ
  target_az : ℚ
  target_el : ℚ
deriving DecidableEq

/-- Initialization `hambits_init` (lines 134–136): all four position fields
start at zero. -/
def hambits_init : HambitsPriv :=
  { az := 0, el := 0, target_az := 0, target_el := 0 }

/-- Left zero-padding of a string to a minimum width, as C `printf` does for
the `0` flag. -/
def zeroPadTo (w : Nat) (body : String) : String :=
  if body.length < w then
    String.mk (List.replicate (w - body.length) '0') ++ body
  else body

/-- Decimal digit characters of `n`, most significant first, accumulated
into `acc`; the first argument is fuel (always sufficient at `n + 1`). -/
def natDigitsAux : Nat → Nat → List Char → List Char
  | 0, _, acc => acc
  | fuel + 1, n, acc =>
      if n < 10 then Char.ofNat (48 + n % 10) :: acc
      else natDigitsAux fuel (n / 10) (Char.ofNat (48 + n % 10) :: acc)

/-- Decimal rendering of a natural number, as C `printf` prints an integer
part (no leading zeros, `0` for zero). -/
def natToDecStr (n : Nat) : String :=
  String.mk (natDigitsAux (n + 1) n [])

/-- The numeric conversion `%03.2f` used by `num_sprintf` at line 196 of
`hambits.c` (`num_stdio.h` forces the C locale, so this is plain `printf`
`%03.2f`): precision 2 — the value rounded to hundredths and printed with
exactly two fractional digits — with the result left zero-padded to a
MINIMUM FIELD WIDTH of 3 characters (not to 3 integer digits).  Modelled
for the nonnegative values this driver formats; the rounding `⌊x·100+1/2⌋`
agrees with `printf` on every value exact in hundredths, which every call
site in the source supplies. -/
def fmt_03_2f (x : ℚ) : String :=
  let cents : Nat := (⌊x * 100 + 1 / 2⌋).toNat
  let frac := cents % 100
  let fracStr := (if frac < 10 then "0" else "") ++ natToDecStr frac
  zeroPadTo 3 (natToDecStr (cents / 100) ++ "." ++ fracStr)

/-- The command string built by `hambits_set_position` (lines 196–197):
`num_sprintf(cmd_str, "setaz%03.2f;setel%03.2f;", az, el)`. -/
def set_position_cmd (az el : ℚ) : String :=
  "setaz" ++ fmt_03_2f az ++ ";setel" ++ fmt_03_2f el ++ ";"

/-- Whether the character list `p` occurs at the start of `s` (helper for the
`strstr` model). -/
def charsStartWith : List Char → List Char → Bool
  | [], _ => true
  | _ :: _, [] => false
  | p :: ps, c :: cs => p = c && charsStartWith ps cs

/-- Whether the character list `p` occurs anywhere in `s` (helper for the
`strstr` model). -/
def charsContain (p : List Char) : List Char → Bool
  | [] => charsStartWith p []
  | c :: cs => charsStartWith p (c :: cs) || charsContain p cs

/-- Model of C `strstr(hay, pat) != NULL`: `pat` occurs as a contiguous
substring of `hay` (line 203 of `hambits.c`). -/
def strstrFound (hay pat : String) : Bool :=
  charsContain pat.toList hay.toList

/-- Numeric value of a list of decimal digit characters. -/
def digitsToNat (ds : List Char) : Nat :=
  ds.foldl (fun n c => 10 * n + (c.toNat - '0'.toNat)) 0

/-- Model of C `strtof` as used on the device's replies (lines 222–223 of
`hambits.c`): a run of decimal digits, optionally followed by `.` and a run
of fractional digits; returns the parsed value and the unconsumed rest of
the string (the position `strtof` stores through its `end` argument).  The
sign/whitespace/exponent forms of `strtof`, which the `DDD.dd;DDD.dd;`
reply grammar never produces, are not modelled. -/
def strtofQ (s : List Char) : ℚ × List Char :=
  let ip := s.takeWhile Char.isDigit
  let r1 := s.dropWhile Char.isDigit
  match r1 with
  | '.' :: r2 =>
      let fp := r2.takeWhile Char.isDigit
      let r3 := r2.dropWhile Char.isDigit
      ((digitsToNat ip : ℚ) + (digitsToNat fp : ℚ) / (10 ^ fp.length : ℚ), r3)
  | _ => ((digitsToNat ip : ℚ), r1)

/-- `hambits_set_position` (lines 183–207 of `hambits.c`): the target fields
are assigned FIRST (lines 193–194), then the `setaz…;setel…;` command is
sent expecting up to 2 reply characters; the transaction's return code is
ignored, and the call succeeds iff `return_str_size > 0` and the buffer
contains the substring `"11"`, else it returns `RIG_EINVAL`.  When the
transaction failed before the read, the C code consults an uninitialized
buffer and length; that (undefined) path is modelled as the rejecting
branch. -/
def hambits_set_position (priv : HambitsPriv) (az el : ℚ)
    (env : Nat → Attempt) : Int × HambitsPriv :=
  let priv1 := { priv with target_az := az, target_el := el }
  let tr := hambits_transaction hambits_retry (some (set_position_cmd az el)) true 2 env
  match tr.data with
  | some s =>
      if 0 < tr.dataLen ∧ strstrFound s "11" then (RIG_OK, priv1)
      else (RIG_EINVAL, priv1)
  | none => (RIG_EINVAL, priv1)

/-- `hambits_get_position` (lines 212–231 of `hambits.c`): sends `getpos;`
expecting up to 15 reply characters (transaction return code ignored); if
`return_str_size > 8` the azimuth is `strtof` of the reply, the elevation is
`strtof` of the text one character past where the azimuth parse stopped, and
the call returns `RIG_OK` with both values; otherwise it returns
`RIG_EINVAL` and leaves the caller's output variables unwritten (`none`).
The pre-read-failure path with its uninitialized locals is modelled as the
failing branch. -/
def hambits_get_position (env : Nat → Attempt) : Int × Option (ℚ × ℚ) :=
  let tr := hambits_transaction hambits_retry (some "getpos;") true 15 env
  match tr.data with
  | some s =>
      if 8 < tr.dataLen then
        let azParse := strtofQ s.toList
        let elParse := strtofQ (azParse.2.drop 1)
        (RIG_OK, some (azParse.1, elParse.1))
      else (RIG_EINVAL, none)
  | none => (RIG_EINVAL, none)

/-- `hambits_stop` (lines 236–253 of `hambits.c`): sends `stop;` with no
reply buffer (returning `RIG_EINVAL` if that transaction fails), then runs
`hambits_get_position`; on its success both current and target are set to
the returned position and the call returns `RIG_OK`, otherwise `RIG_EINVAL`
with the state untouched.  `env1` drives the `stop;` transaction, `env2`
the embedded `getpos;` transaction. -/
def hambits_stop (priv : HambitsPriv) (env1 env2 : Nat → Attempt) : Int × HambitsPriv :=
  if (hambits_transaction hambits_retry (some "stop;") false 0 env1).code ≠ RIG_OK then
    (RIG_EINVAL, priv)
  else
    let gp := hambits_get_position env2
    if gp.1 = RIG_OK then
      match gp.2 with
      | some p =>
          (RIG_OK, { az := p.1, el := p.2, target_az := p.1, target_el := p.2 })
      | none => (RIG_EINVAL, priv)
    else (RIG_EINVAL, priv)

/-- `hambits_park` (lines 258–264 of `hambits.c`): delegates to
`hambits_set_position(rot, 0, 0)`. -/
def hambits_park (priv : HambitsPriv) (env : Nat → Attempt) : Int × HambitsPriv :=
  hambits_set_position priv 0 0 env

/-- `hambits_reset` (lines 269–274 of `hambits.c`): ignores its `reset`
argument and delegates to `hambits_park`. -/
def hambits_reset (priv : HambitsPriv) (resetArg : Int)
    (env : Nat → Attempt) : Int × HambitsPriv :=
  hambits_park priv env

/-- `hambits_move` (lines 279–304 of `hambits.c`): dispatches on the
direction flag to `hambits_set_position` with one axis held at the current
target and the other driven to an extreme; any other direction returns
`-RIG_EINVAL`.  The `speed` argument is never read. -/
def hambits_move (priv : HambitsPriv) (direction speed : Int)
    (env : Nat → Attempt) : Int × HambitsPriv :=
  if direction = ROT_MOVE_UP then
    hambits_set_position priv priv.target_az 180 env
  else if direction = ROT_MOVE_DOWN then
    hambits_set_position priv priv.target_az 0 env
  else if direction = ROT_MOVE_CCW then
    hambits_set_position priv 0 priv.target_el env
  else if direction = ROT_MOVE_CW then
    hambits_set_position priv 360 priv.target_el env
  else
    (-RIG_EINVAL, priv)

/-- Transport environment in which the device answers every exchange
successfully with the reply `r`: the write succeeds and `read_string`
returns the reply's byte count with the reply in the buffer. -/
def envReply (r : String) : Nat → Attempt :=
  fun _ => { writeResult := RIG_OK, readResult := (r.length : Int), readData := r }

/-- Transport environment in which every `write_block` call fails with
the negated `RIG_EIO`. -/
def envWriteFail : Nat → Attempt :=
  fun _ => { writeResult := Neg.neg RIG_EIO, readResult := 0, readData := "" }

/-- Transport environment in which every write succeeds and every
`read_string` call times out, returning `-RIG_ETIMEOUT` and leaving the
zeroed buffer empty. -/
def envTimeout : Nat → Attempt :=
  fun _ => { writeResult := RIG_OK, readResult := -RIG_ETIMEOUT, readData := "" }

/- Helper lemmas about the transaction engine and the command layer. -/

/-- When the first write succeeds (or there is no command), a transaction
that wants a reply returns `RIG_OK` with the first read's data — whatever
the read result was, since the `*data_len < 0` test is a comparison on
`size_t`. -/
theorem transact_reply_eq (cap : Nat) (cmd : Option String) (elen : Nat)
    (env : Nat → Attempt) (hw : cmd.isSome → (env 0).writeResult = RIG_OK) :
    hambits_transaction cap cmd true elen env =
      { code := RIG_OK, data := some (env 0).readData,
        dataLen := toSizeT (env 0).readResult } := by
  unfold hambits_transaction transactLoop
  cases cmd with
  | none => simp
  | some c => simp [hw rfl]

/-- A failing first write makes the transaction return that write's error
immediately, with the reply buffer untouched. -/
theorem transact_write_fail (cap : Nat) (c : String) (w : Bool) (elen : Nat)
    (env : Nat → Attempt) (hw : (env 0).writeResult ≠ RIG_OK) :
    hambits_transaction cap (some c) w elen env =
      { code := (env 0).writeResult, data := none, dataLen := 0 } := by
  unfold hambits_transaction transactLoop
  simp [hw]

/-- When no reply buffer is supplied and the write (if any) succeeds, the
transaction returns `RIG_OK` immediately. -/
theorem transact_noreply_eq (cap : Nat) (cmd : Option String) (elen : Nat)
    (env : Nat → Attempt) (hw : cmd.isSome → (env 0).writeResult = RIG_OK) :
    hambits_transaction cap cmd false elen env =
      { code := RIG_OK, data := none, dataLen := 0 } := by
  unfold hambits_transaction transactLoop
  cases cmd with
  | none => simp
  | some c => simp [hw rfl]

/-- `toSizeT` is the identity on representable byte counts. -/
theorem toSizeT_small (n : Nat) (h : n < 2 ^ 64) : toSizeT (n : Int) = n := by
  unfold toSizeT
  rw [Int.emod_eq_of_lt (by positivity) (by exact_mod_cast h)]
  simp

/-- `hambits_set_position` under a successful first write: the outcome is
decided by the acceptance test on the reply, and the target fields are set
either way. -/
theorem set_position_eq (priv : HambitsPriv) (az el : ℚ) (env : Nat → Attempt)
    (hw : (env 0).writeResult = RIG_OK) :
    hambits_set_position priv az el env =
      if 0 < toSizeT (env 0).readResult ∧ strstrFound (env 0).readData "11" then
        (RIG_OK, { priv with target_az := az, target_el := el })
      else
        (RIG_EINVAL, { priv with target_az := az, target_el := el }) := by
  simp only [hambits_set_position]
  rw [transact_reply_eq _ _ _ _ fun _ => hw]

/-- The state returned by `hambits_set_position` is always the input state
with the target fields overwritten — the assignment happens before the
transaction and is never rolled back, and the current-position fields are
never touched. -/
theorem set_position_state (priv : HambitsPriv) (az el : ℚ) (env : Nat → Attempt) :
    (hambits_set_position priv az el env).2 =
      { priv with target_az := az, target_el := el } := by
  simp only [hambits_set_position]
  generalize hambits_transaction hambits_retry (some (set_position_cmd az el)) true 2 env = tr
  rcases tr with ⟨c, d, L⟩
  rcases d with _ | s
  · rfl
  · dsimp only
    split <;> rfl

/-- `hambits_get_position` under a successful first write: the reply is
parsed iff the stored length exceeds 8. -/
theorem get_position_eq (env : Nat → Attempt) (hw : (env 0).writeResult = RIG_OK) :
    hambits_get_position env =
      if 8 < toSizeT (env 0).readResult then
        (RIG_OK, some ((strtofQ (env 0).readData.toList).1,
          (strtofQ ((strtofQ (env 0).readData.toList).2.drop 1)).1))
      else (RIG_EINVAL, none) := by
  simp only [hambits_get_position]
  rw [transact_reply_eq _ _ _ _ fun _ => hw]

/-- `hambits_get_position` either succeeds with a parsed pair or fails with
`RIG_EINVAL` and no values written. -/
theorem get_position_cases (env : Nat → Attempt) :
    (∃ p : ℚ × ℚ, hambits_get_position env = (RIG_OK, some p)) ∨
      hambits_get_position env = (RIG_EINVAL, none) := by
  simp only [hambits_get_position]
  generalize hambits_transaction hambits_retry (some "getpos;") true 15 env = tr
  rcases tr with ⟨c, d, L⟩
  rcases d with _ | s
  · right; rfl
  · dsimp only
    split
    · left; exact ⟨_, rfl⟩
    · right; rfl

/-- Azimuth parse of the reply `045.50;090.25;\n`: value 45.5, stopping at
the first semicolon. -/
theorem strtofQ_eval_az : strtofQ "045.50;090.25;\n".toList = (45.5, ";090.25;\n".toList) := by
  have h1 : "045.50;090.25;\n".toList.takeWhile Char.isDigit = ['0', '4', '5'] := by decide
  have h2 : "045.50;090.25;\n".toList.dropWhile Char.isDigit =
      '.' :: "50;090.25;\n".toList := by decide
  have h3 : "50;090.25;\n".toList.takeWhile Char.isDigit = ['5', '0'] := by decide
  have h4 : "50;090.25;\n".toList.dropWhile Char.isDigit = ";090.25;\n".toList := by decide
  have h5 : digitsToNat ['0', '4', '5'] = 45 := by decide
  have h6 : digitsToNat ['5', '0'] = 50 := by decide
  simp only [strtofQ, h1, h2, h3, h4, h5, h6, Prod.mk.injEq]
  exact ⟨by norm_num, trivial⟩

/-- Elevation parse one character past the azimuth's end: value 90.25. -/
theorem strtofQ_eval_el : strtofQ "090.25;\n".toList = (90.25, ";\n".toList) := by
  have h1 : "090.25;\n".toList.takeWhile Char.isDigit = ['0', '9', '0'] := by decide
  have h2 : "090.25;\n".toList.dropWhile Char.isDigit = '.' :: "25;\n".toList := by decide
  have h3 : "25;\n".toList.takeWhile Char.isDigit = ['2', '5'] := by decide
  have h4 : "25;\n".toList.dropWhile Char.isDigit = ";\n".toList := by decide
  have h5 : digitsToNat ['0', '9', '0'] = 90 := by decide
  have h6 : digitsToNat ['2', '5'] = 25 := by decide
  simp only [strtofQ, h1, h2, h3, h4, h5, h6, Prod.mk.injEq]
  exact ⟨by norm_num, trivial⟩

/-- Azimuth parse of the reply `010.00;020.00;\n`: value 10. -/
theorem strtofQ_eval_az10 : strtofQ "010.00;020.00;\n".toList = (10, ";020.00;\n".toList) := by
  have h1 : "010.00;020.00;\n".toList.takeWhile Char.isDigit = ['0', '1', '0'] := by decide
  have h2 : "010.00;020.00;\n".toList.dropWhile Char.isDigit =
      '.' :: "00;020.00;\n".toList := by decide
  have h3 : "00;020.00;\n".toList.takeWhile Char.isDigit = ['0', '0'] := by decide
  have h4 : "00;020.00;\n".toList.dropWhile Char.isDigit = ";020.00;\n".toList := by decide
  have h5 : digitsToNat ['0', '1', '0'] = 10 := by decide
  have h6 : digitsToNat ['0', '0'] = 0 := by decide
  simp only [strtofQ, h1, h2, h3, h4, h5, h6, Prod.mk.injEq]
  exact ⟨by norm_num, trivial⟩

/-- Elevation parse of the second field of `010.00;020.00;\n`: value 20. -/
theorem strtofQ_eval_el20 : strtofQ "020.00;\n".toList = (20, ";\n".toList) := by
  have h1 : "020.00;\n".toList.takeWhile Char.isDigit = ['0', '2', '0'] := by decide
  have h2 : "020.00;\n".toList.dropWhile Char.isDigit = '.' :: "00;\n".toList := by decide
  have h3 : "00;\n".toList.takeWhile Char.isDigit = ['0', '0'] := by decide
  have h4 : "00;\n".toList.dropWhile Char.isDigit = ";\n".toList := by decide
  have h5 : digitsToNat ['0', '2', '0'] = 20 := by decide
  have h6 : digitsToNat ['0', '0'] = 0 := by decide
  simp only [strtofQ, h1, h2, h3, h4, h5, h6, Prod.mk.injEq]
  exact ⟨by norm_num, trivial⟩

/-- Full evaluation of `hambits_get_position` on the reply
`045.50;090.25;\n`. -/
theorem get_position_eval_4550 :
    hambits_get_position (envReply "045.50;090.25;\n") = (RIG_OK, some (45.5, 90.25)) := by
  rw [get_position_eq _ rfl]
  have h8 : 8 < toSizeT ((envReply "045.50;090.25;\n" 0).readResult) := by decide
  rw [if_pos h8]
  have hd : (envReply "045.50;090.25;\n" 0).readData = "045.50;090.25;\n" := rfl
  rw [hd, strtofQ_eval_az]
  have hdrop : (((45.5 : ℚ), ";090.25;\n".toList).2).drop 1 = "090.25;\n".toList := by decide
  rw [hdrop, strtofQ_eval_el]

/-- Full evaluation of `hambits_get_position` on the reply
`010.00;020.00;\n`. -/
theorem get_position_eval_1020 :
    hambits_get_position (envReply "010.00;020.00;\n") = (RIG_OK, some (10, 20)) := by
  rw [get_position_eq _ rfl]
  have h8 : 8 < toSizeT ((envReply "010.00;020.00;\n" 0).readResult) := by decide
  rw [if_pos h8]
  have hd : (envReply "010.00;020.00;\n" 0).readData = "010.00;020.00;\n" := rfl
  rw [hd, strtofQ_eval_az10]
  have hdrop : (((10 : ℚ), ";020.00;\n".toList).2).drop 1 = "020.00;\n".toList := by decide
  rw [hdrop, strtofQ_eval_el20]

/-- Full evaluation of `hambits_get_position` on an empty reply: too short,
`RIG_EINVAL`. -/
theorem get_position_eval_empty :
    hambits_get_position (envReply "") = (RIG_EINVAL, none) := by
  rw [get_position_eq _ rfl]
  have h8 : ¬ 8 < toSizeT ((envReply "" 0).readResult) := by decide
  rw [if_neg h8]

/-- Evaluation of the `%03.2f` conversion at 0: width 3 requires no padding
of the four-character `0.00`. -/
theorem fmt_zero : fmt_03_2f 0 = "0.00" := by
  have hc : ⌊(0 : ℚ) * 100 + 1 / 2⌋ = 0 := by norm_num
  simp only [fmt_03_2f]
  rw [hc]
  decide

/-- `hambits_get_position` depends only on the first exchange of its
environment (given a successful write). -/
theorem get_position_env0 (env env' : Nat → Attempt) (h0 : env 0 = env' 0)
    (hw : (env 0).writeResult = RIG_OK) :
    hambits_get_position env = hambits_get_position env' := by
  rw [get_position_eq env hw, get_position_eq env' (by rw [← h0]; exact hw), h0]

/-- A successfully read reply of at most 8 characters makes
`hambits_get_position` fail with `RIG_EINVAL`. -/
theorem get_position_short (env : Nat → Attempt) (r : String) (hlen : r.length ≤ 8)
    (heq : env 0 = { writeResult := RIG_OK, readResult := (r.length : Int), readData := r }) :
    hambits_get_position env = (RIG_EINVAL, none) := by
  have hlt : ¬ 8 < toSizeT ((env 0).readResult) := by
    rw [heq]
    show ¬ 8 < toSizeT ((r.length : Nat) : Int)
    rw [toSizeT_small _ (by omega)]
    omega
  rw [get_position_eq _ (by rw [heq]), if_neg hlt]

/-- `hambits_stop` when the `stop;` write and the embedded position read
both succeed: both position records become the read position. -/
theorem stop_success (priv : HambitsPriv) (env1 env2 : Nat → Attempt) (p : ℚ × ℚ)
    (hw : (env1 0).writeResult = RIG_OK)
    (hgp : hambits_get_position env2 = (RIG_OK, some p)) :
    hambits_stop priv env1 env2 =
      (RIG_OK, { az := p.1, el := p.2, target_az := p.1, target_el := p.2 }) := by
  simp only [hambits_stop]
  rw [transact_noreply_eq _ _ _ _ fun _ => hw]
  simp [hgp]

/-- `hambits_stop` when the `stop;` write fails: `RIG_EINVAL`, state
untouched. -/
theorem stop_write_fail (priv : HambitsPriv) (env1 env2 : Nat → Attempt)
    (hw : (env1 0).writeResult ≠ RIG_OK) :
    hambits_stop priv env1 env2 = (RIG_EINVAL, priv) := by
  simp only [hambits_stop]
  rw [transact_write_fail _ _ _ _ _ hw]
  simp [hw]

/-- `hambits_stop` when the embedded position read fails: `RIG_EINVAL`,
state untouched. -/
theorem stop_gp_fail (priv : HambitsPriv) (env1 env2 : Nat → Attempt)
    (hw : (env1 0).writeResult = RIG_OK)
    (hne : (hambits_get_position env2).1 ≠ RIG_OK) :
    hambits_stop priv env1 env2 = (RIG_EINVAL, priv) := by
  simp only [hambits_stop]
  rw [transact_noreply_eq _ _ _ _ fun _ => hw]
  rcases get_position_cases env2 with ⟨p, hp⟩ | hp
  · exact absurd (by rw [hp]) hne
  · simp [hp, RIG_EINVAL, RIG_OK]

/- Claim theorems. -/

/-- C1: the claim — and the function's own documentation — say that when a
transaction wanting a reply sees every read time out, it retries up to the
budget of 5 and then fails with `RIG_ETIMEOUT`.  In the code, however, the
read result is stored into the unsigned `*data_len`, so in the environment
where every write succeeds and every `read_string` call returns
`-RIG_ETIMEOUT`, the transaction returns `RIG_OK` after the first attempt
with `*data_len = 2^64 - 5`, and never returns `RIG_ETIMEOUT`: the code
contradicts the claim. -/
theorem hambits_C1_timeout_code_bug :
    hambits_transaction hambits_retry (some "getpos;") true 15 envTimeout =
      { code := RIG_OK, data := some "", dataLen := 2 ^ 64 - 5 } ∧
    (hambits_transaction hambits_retry (some "getpos;") true 15 envTimeout).code ≠
      RIG_ETIMEOUT := by
  have h := transact_reply_eq hambits_retry (some "getpos;") 15 envTimeout fun _ => rfl
  have hL : toSizeT ((envTimeout 0).readResult) = 2 ^ 64 - 5 := by decide
  rw [hL] at h
  exact ⟨h, by rw [h]; decide⟩

/-- C9: because the read result is stored into a variable of unsigned type,
the negativity test that detects a read timeout is always false; for every
transaction whose write succeeds (or that has no command) and whose reply
buffer is non-null, `hambits_transaction` returns `RIG_OK` after the first
read attempt regardless of the read's outcome — the buffer holds the first
attempt's data and `*data_len` its result reduced modulo `2^64` — and the
`RIG_ETIMEOUT` return branch is unreachable. -/
theorem hambits_C9_unsigned_read (cap : Nat) (cmd : Option String) (elen : Nat)
    (env : Nat → Attempt) (hw : cmd.isSome → (env 0).writeResult = RIG_OK) :
    hambits_transaction cap cmd true elen env =
      { code := RIG_OK, data := some (env 0).readData,
        dataLen := toSizeT (env 0).readResult } ∧
    (hambits_transaction cap cmd true elen env).code ≠ RIG_ETIMEOUT := by
  have h := transact_reply_eq cap cmd elen env hw
  exact ⟨h, by rw [h]; show RIG_OK ≠ RIG_ETIMEOUT; decide⟩

/-- Witness for C9 at a concrete input: retry budget 5, command `getpos;`,
an environment whose every read times out. -/
theorem hambits_C9_witness :
    hambits_transaction 5 (some "getpos;") true 15 envTimeout =
      { code := RIG_OK, data := some (envTimeout 0).readData,
        dataLen := toSizeT (envTimeout 0).readResult } ∧
    (hambits_transaction 5 (some "getpos;") true 15 envTimeout).code ≠ RIG_ETIMEOUT :=
  hambits_C9_unsigned_read 5 (some "getpos;") 15 envTimeout fun _ => rfl

/-- C8: if a command is provided and the transport write fails, the
transaction immediately returns that failure (the transport's I/O error)
with no retry — the result is determined by the first attempt alone; if no
reply is wanted, the transaction succeeds immediately after a successful
write; and a transaction with neither command nor reply always succeeds. -/
theorem hambits_C8_transaction_write :
    (∀ (cap : Nat) (c : String) (w : Bool) (elen : Nat) (env : Nat → Attempt),
       (env 0).writeResult ≠ RIG_OK →
       hambits_transaction cap (some c) w elen env =
         { code := (env 0).writeResult, data := none, dataLen := 0 }) ∧
    (∀ (cap : Nat) (cmd : Option String) (elen : Nat) (env : Nat → Attempt),
       (cmd.isSome → (env 0).writeResult = RIG_OK) →
       hambits_transaction cap cmd false elen env =
         { code := RIG_OK, data := none, dataLen := 0 }) ∧
    (∀ (cap elen : Nat) (env : Nat → Attempt),
       hambits_transaction cap none false elen env =
         { code := RIG_OK, data := none, dataLen := 0 }) :=
  ⟨transact_write_fail, transact_noreply_eq,
   fun cap elen env => transact_noreply_eq cap none elen env (fun h => by simp at h)⟩

/-- Witness for C8 at concrete inputs: a failing write returning the negated `RIG_EIO`, a
no-reply `stop;` transaction, and a command-less reply-less transaction. -/
theorem hambits_C8_witness :
    ((envWriteFail 0).writeResult ≠ RIG_OK ∧
     hambits_transaction 5 (some "getpos;") true 15 envWriteFail =
       { code := (envWriteFail 0).writeResult, data := none, dataLen := 0 }) ∧
    hambits_transaction 5 (some "stop;") false 0 (envReply "") =
      { code := RIG_OK, data := none, dataLen := 0 } ∧
    hambits_transaction 5 none false 0 (envReply "") =
      { code := RIG_OK, data := none, dataLen := 0 } :=
  ⟨⟨by decide, hambits_C8_transaction_write.1 5 "getpos;" true 15 envWriteFail (by decide)⟩,
   hambits_C8_transaction_write.2.1 5 (some "stop;") 0 (envReply "") fun _ => rfl,
   hambits_C8_transaction_write.2.2 5 0 (envReply "")⟩

/-- C2: for every az in [0, 360] and el in [0, 180], `setPosition(az, el)`
answered by the device reply `"11"` returns `RIG_OK` and leaves the stored
target equal to (az, el); answered by `"10"`, `"01"`, `"00"` or the empty
reply it returns `RIG_EINVAL`. -/
theorem hambits_C2_set_position_reply (az el : ℚ) (priv : HambitsPriv)
    (h0 : 0 ≤ az) (h1 : az ≤ 360) (h2 : 0 ≤ el) (h3 : el ≤ 180) :
    (∀ env : Nat → Attempt,
       env 0 = { writeResult := RIG_OK, readResult := 2, readData := "11" } →
       hambits_set_position priv az el env =
         (RIG_OK, { priv with target_az := az, target_el := el })) ∧
    (∀ (env : Nat → Attempt) (r : String),
       r = "10" ∨ r = "01" ∨ r = "00" ∨ r = "" →
       env 0 = { writeResult := RIG_OK, readResult := (r.length : Int), readData := r } →
       hambits_set_position priv az el env =
         (RIG_EINVAL, { priv with target_az := az, target_el := el })) := by
  constructor
  · intro env heq
    rw [set_position_eq _ _ _ _ (by rw [heq]), heq, if_pos (by decide)]
  · rintro env r (rfl | rfl | rfl | rfl) heq <;>
      rw [set_position_eq _ _ _ _ (by rw [heq]), heq, if_neg (by decide)]

/-- Witness for C2 at az = 45.5, el = 45, with the accepting reply `"11"`
and the rejecting reply `"00"`. -/
theorem hambits_C2_witness :
    hambits_set_position hambits_init (91 / 2) 45 (envReply "11") =
      (RIG_OK, { hambits_init with target_az := 91 / 2, target_el := 45 }) ∧
    hambits_set_position hambits_init (91 / 2) 45 (envReply "00") =
      (RIG_EINVAL, { hambits_init with target_az := 91 / 2, target_el := 45 }) := by
  have h := hambits_C2_set_position_reply (91 / 2) 45 hambits_init
    (by norm_num) (by norm_num) (by norm_num) (by norm_num)
  exact ⟨h.1 (envReply "11") rfl, h.2 (envReply "00") "00" (by tauto) rfl⟩

/-- C3: the claim says `park()` sends `setaz000.00;setel000.00;` (values
zero-padded to 3 integer digits), which the code's own command table
(`setazDDD.dd;`) also documents.  The source formats with `%03.2f` — a
minimum field width of 3, not 3 integer digits — so `park`'s command
(`setPosition(0, 0)`, identical on every call) is actually
`setaz0.00;setel0.00;`: the format string contradicts the documented wire
format. -/
theorem hambits_C3_park_format_code_bug :
    set_position_cmd 0 0 = "setaz0.00;setel0.00;" ∧
    set_position_cmd 0 0 ≠ "setaz000.00;setel000.00;" := by
  have h : set_position_cmd 0 0 = "setaz0.00;setel0.00;" := by
    simp only [set_position_cmd, fmt_zero]
    decide
  exact ⟨h, by rw [h]; decide⟩

/-- Counterexample to C4: from the freshly initialized state (target
(0, 0)), `setPosition(10, 20)` answered by the rejecting reply `"00"`
returns `RIG_EINVAL`, yet the stored target has changed to (10, 20) — the
target is updated without any device acknowledgement. -/
theorem hambits_C4_counterexample :
    (hambits_set_position hambits_init 10 20 (envReply "00")).1 = RIG_EINVAL ∧
    (hambits_set_position hambits_init 10 20 (envReply "00")).2.target_az ≠
      hambits_init.target_az ∧
    (hambits_set_position hambits_init 10 20 (envReply "00")).2 =
      { hambits_init with target_az := 10, target_el := 20 } := by
  have h := set_position_eq hambits_init 10 20 (envReply "00") rfl
  rw [if_neg (by decide)] at h
  refine ⟨by rw [h], ?_, by rw [h]⟩
  rw [h]
  show (10 : ℚ) ≠ 0
  norm_num

/-- C4 (amended): `setPosition` always overwrites the stored target with its
arguments — before the device answers and with no rollback on a rejected
reply — while never touching the stored current position; and the current
position is updated only by `stop` after a successful position read, which
then sets both current and target to the read position. -/
theorem hambits_C4_target_amended :
    (∀ (priv : HambitsPriv) (az el : ℚ) (env : Nat → Attempt),
       (hambits_set_position priv az el env).2 =
         { priv with target_az := az, target_el := el }) ∧
    (∀ (priv : HambitsPriv) (env1 env2 : Nat → Attempt),
       hambits_stop priv env1 env2 = (RIG_EINVAL, priv) ∨
       ∃ p : ℚ × ℚ, hambits_get_position env2 = (RIG_OK, some p) ∧
         hambits_stop priv env1 env2 =
           (RIG_OK, { az := p.1, el := p.2, target_az := p.1, target_el := p.2 })) := by
  constructor
  · exact set_position_state
  · intro priv env1 env2
    by_cases hw : (env1 0).writeResult = RIG_OK
    · rcases get_position_cases env2 with ⟨p, hp⟩ | hp
      · exact Or.inr ⟨p, hp, stop_success priv env1 env2 p hw hp⟩
      · exact Or.inl (stop_gp_fail priv env1 env2 hw (by rw [hp]; decide))
    · exact Or.inl (stop_write_fail priv env1 env2 hw)

/-- C5: `getPosition` answered by `"045.50;090.25;\n"` returns `RIG_OK`
with az = 45.5 parsed up to the first semicolon and el = 90.25 parsed
immediately after it; any successfully read reply shorter than 9
characters yields `RIG_EINVAL`. -/
theorem hambits_C5_get_position_parse :
    (∀ env : Nat → Attempt,
       env 0 = { writeResult := RIG_OK, readResult := 15, readData := "045.50;090.25;\n" } →
       hambits_get_position env = (RIG_OK, some (45.5, 90.25))) ∧
    (∀ (env : Nat → Attempt) (r : String), r.length ≤ 8 →
       env 0 = { writeResult := RIG_OK, readResult := (r.length : Int), readData := r } →
       hambits_get_position env = (RIG_EINVAL, none)) := by
  constructor
  · intro env heq
    rw [get_position_env0 env (envReply "045.50;090.25;\n") (by rw [heq]; rfl) (by rw [heq])]
    exact get_position_eval_4550
  · exact get_position_short

/-- Witness for C5 at the reply `"045.50;090.25;\n"` and the 8-character
reply `"045.50;0"`. -/
theorem hambits_C5_witness :
    hambits_get_position (envReply "045.50;090.25;\n") = (RIG_OK, some (45.5, 90.25)) ∧
    hambits_get_position (envReply "045.50;0") = (RIG_EINVAL, none) :=
  ⟨hambits_C5_get_position_parse.1 (envReply "045.50;090.25;\n") rfl,
   hambits_C5_get_position_parse.2 (envReply "045.50;0") "045.50;0" (by decide) rfl⟩

/-- C6: `stop()` sends `stop;` with no reply expected and then performs a
`getPosition` transaction; when both succeed and the read position is p,
both the stored current and target positions become p and `stop` returns
`RIG_OK`; if either sub-transaction fails, `stop` returns `RIG_EINVAL`
(leaving the state untouched). -/
theorem hambits_C6_stop (priv : HambitsPriv) (env1 env2 : Nat → Attempt) :
    (∀ p : ℚ × ℚ, (env1 0).writeResult = RIG_OK →
       hambits_get_position env2 = (RIG_OK, some p) →
       hambits_stop priv env1 env2 =
         (RIG_OK, { az := p.1, el := p.2, target_az := p.1, target_el := p.2 })) ∧
    ((env1 0).writeResult ≠ RIG_OK →
       hambits_stop priv env1 env2 = (RIG_EINVAL, priv)) ∧
    ((env1 0).writeResult = RIG_OK → (hambits_get_position env2).1 ≠ RIG_OK →
       hambits_stop priv env1 env2 = (RIG_EINVAL, priv)) :=
  ⟨fun p hw hgp => stop_success priv env1 env2 p hw hgp,
   stop_write_fail priv env1 env2,
   stop_gp_fail priv env1 env2⟩

/-- Witness for C6: a successful `stop;` write followed by the reply
`010.00;020.00;\n` sets current = target = (10, 20); a failing `stop;`
write, or an empty (too short) position reply, yields `RIG_EINVAL` with the
initial state unchanged. -/
theorem hambits_C6_witness :
    hambits_stop hambits_init (envReply "") (envReply "010.00;020.00;\n") =
      (RIG_OK, { az := 10, el := 20, target_az := 10, target_el := 20 }) ∧
    hambits_stop hambits_init envWriteFail (envReply "010.00;020.00;\n") =
      (RIG_EINVAL, hambits_init) ∧
    hambits_stop hambits_init (envReply "") (envReply "") = (RIG_EINVAL, hambits_init) :=
  ⟨(hambits_C6_stop hambits_init (envReply "") (envReply "010.00;020.00;\n")).1
     (10, 20) rfl get_position_eval_1020,
   (hambits_C6_stop hambits_init envWriteFail (envReply "010.00;020.00;\n")).2.1 (by decide),
   (hambits_C6_stop hambits_init (envReply "") (envReply "")).2.2 rfl
     (by rw [get_position_eval_empty]; decide)⟩

/-- C7: `move(direction, speed)` delegates to `setPosition` with one axis
held at the current target and the other driven to an extreme — up gives
el = 180, down el = 0, counter-clockwise az = 0, clockwise az = 360 — so it
issues exactly the command that `setPosition` would; an unrecognized
direction returns `-RIG_EINVAL` with the state unchanged, and the `speed`
argument never influences the result. -/
theorem hambits_C7_move (priv : HambitsPriv) (s : Int) (env : Nat → Attempt) :
    hambits_move priv ROT_MOVE_UP s env =
      hambits_set_position priv priv.target_az 180 env ∧
    hambits_move priv ROT_MOVE_DOWN s env =
      hambits_set_position priv priv.target_az 0 env ∧
    hambits_move priv ROT_MOVE_CCW s env =
      hambits_set_position priv 0 priv.target_el env ∧
    hambits_move priv ROT_MOVE_CW s env =
      hambits_set_position priv 360 priv.target_el env ∧
    (∀ d : Int, d ≠ ROT_MOVE_UP → d ≠ ROT_MOVE_DOWN → d ≠ ROT_MOVE_CCW →
       d ≠ ROT_MOVE_CW → hambits_move priv d s env = (-RIG_EINVAL, priv)) ∧
    (∀ (d s' : Int), hambits_move priv d s env = hambits_move priv d s' env) := by
  refine ⟨?_, ?_, ?_, ?_, ?_, fun d s' => rfl⟩
  · rw [hambits_move, if_pos rfl]
  · rw [hambits_move, if_neg (by decide), if_pos rfl]
  · rw [hambits_move, if_neg (by decide), if_neg (by decide), if_pos rfl]
  · rw [hambits_move, if_neg (by decide), if_neg (by decide), if_neg (by decide),
      if_pos rfl]
  · intro d hu hd hccw hcw
    rw [hambits_move, if_neg hu, if_neg hd, if_neg hccw, if_neg hcw]

/-- Witness for C7: the four delegations at the initial state with an
accepting reply, the unrecognized direction 3, and two different speeds. -/
theorem hambits_C7_witness :
    hambits_move hambits_init ROT_MOVE_UP 7 (envReply "11") =
      hambits_set_position hambits_init hambits_init.target_az 180 (envReply "11") ∧
    hambits_move hambits_init 3 7 (envReply "11") = (-RIG_EINVAL, hambits_init) ∧
    hambits_move hambits_init 3 7 (envReply "11") =
      hambits_move hambits_init 3 9 (envReply "11") := by
  have h := hambits_C7_move hambits_init 7 (envReply "11")
  exact ⟨h.1, h.2.2.2.2.1 3 (by decide) (by decide) (by decide) (by decide),
    h.2.2.2.2.2 3 9⟩

/-- C10: `reset`, for every value of its reset argument, behaves
identically to `park`, which in turn issues the `setPosition(0, 0)`
command sequence and returns its result. -/
theorem hambits_C10_reset_is_park (priv : HambitsPriv) (resetArg : Int)
    (env : Nat → Attempt) :
    hambits_reset priv resetArg env = hambits_park priv env ∧
    hambits_park priv env = hambits_set_position priv 0 0 env :=
  ⟨rfl, rfl⟩

end Hambits
